import Mathlib

/-!
Shallow embedding of the real-time order-tracking subsystem of the
zefood customer app: the orders-namespace socket session with room
membership tracking (src/hooks/useOrdersSocket.ts, the ref-based variant
with a pending-join queue), the tracking hook's push handlers, REST
fetch and disconnect (src/hooks/useOrderTracking.ts), and the
orders-list room delta (src/screens/OrdersScreen.tsx).

Socket emissions and socket termination are recorded in an explicit
event log; React refs become fields of an explicit state record, and
each socket event handler becomes a state-transition function.
-/

namespace ZeFood

/-- A single observable action on a socket: an `emit(name, id)` call or a
`socket.disconnect()` call. -/
inductive SockEvent where
  | emit (name : String) (id : String)
  | close
  deriving DecidableEq, Repr

/-- Event name used by `joinOrder` emissions (client→server subscribe on the
orders namespace). -/
def joinOrderEvt : String := "joinOrder"

/-- Event name used by `leaveOrder` emissions (client→server unsubscribe on the
orders namespace). -/
def leaveOrderEvt : String := "leaveOrder"

/-- State of the orders-namespace socket session of `useOrdersSocket`:
`joinedRooms` and `pendingJoins` model `joinedRoomsRef`/`pendingJoinsRef`
(JS `Set<string>`, modelled as duplicate-free lists in insertion order),
`connected` models `socketRef.current?.connected`, and `log` records every
emission and close in order. -/
structure OrdersSocketState where
  joinedRooms : List String
  pendingJoins : List String
  connected : Bool
  log : List SockEvent
  deriving DecidableEq, Repr

/-- `Set.add`: append an element unless already present. -/
def insertUniq (l : List String) (x : String) : List String :=
  if x ∈ l then l else l ++ [x]

/-- The `joinOrder` callback of `useOrdersSocket`: no-op when the room is
already joined; emit and mark joined when connected; otherwise queue the id
in the pending set. -/
def joinOrder (id : String) (s : OrdersSocketState) : OrdersSocketState :=
  if id ∈ s.joinedRooms then s
  else if s.connected = true then
    { s with log := s.log ++ [SockEvent.emit joinOrderEvt id],
             joinedRooms := s.joinedRooms ++ [id] }
  else
    { s with pendingJoins := insertUniq s.pendingJoins id }

/-- The `leaveOrder` callback of `useOrdersSocket`: always drop the id from
the pending set; additionally emit `leaveOrder` when the room is joined and
the socket is connected, and drop the id from the joined set in either case. -/
def leaveOrder (id : String) (s : OrdersSocketState) : OrdersSocketState :=
  let s1 := { s with pendingJoins := s.pendingJoins.erase id }
  if id ∈ s1.joinedRooms ∧ s1.connected = true then
    { s1 with log := s1.log ++ [SockEvent.emit leaveOrderEvt id],
              joinedRooms := s1.joinedRooms.erase id }
  else
    { s1 with joinedRooms := s1.joinedRooms.erase id }

/-- One iteration of the pending-joins loop in the `connect` handler:
emit `joinOrder` for the queued id and add it to the joined set. -/
def connectStep (acc : OrdersSocketState) (r : String) : OrdersSocketState :=
  { acc with log := acc.log ++ [SockEvent.emit joinOrderEvt r],
             joinedRooms := insertUniq acc.joinedRooms r }

/-- The `connect` handler of `useOrdersSocket`: set the connected flag,
re-emit `joinOrder` for every joined room, process every pending join
(emit and promote to joined), clear the pending set, and finally join the
initial `orderId` prop when provided and not already joined. -/
def connectHandler (orderIdOpt : Option String) (s : OrdersSocketState) :
    OrdersSocketState :=
  let s1 : OrdersSocketState :=
    { s with connected := true,
             log := s.log ++ s.joinedRooms.map (fun r => SockEvent.emit joinOrderEvt r) }
  let s2 : OrdersSocketState := s.pendingJoins.foldl connectStep s1
  let s3 : OrdersSocketState := { s2 with pendingJoins := [] }
  match orderIdOpt with
  | none => s3
  | some oid =>
      if oid ∈ s3.joinedRooms then s3
      else { s3 with log := s3.log ++ [SockEvent.emit joinOrderEvt oid],
                     joinedRooms := s3.joinedRooms ++ [oid] }

/-- The `disconnect` handler of `useOrdersSocket`: clears the connected flag. -/
def disconnectHandler (s : OrdersSocketState) : OrdersSocketState :=
  { s with connected := false }

/-- The unmount cleanup of `useOrdersSocket`: emit `leaveOrder` for every
joined room, clear both sets, and terminate the socket. -/
def ordersCleanup (s : OrdersSocketState) : OrdersSocketState :=
  { s with log := (s.log ++ s.joinedRooms.map (fun r => SockEvent.emit leaveOrderEvt r))
                    ++ [SockEvent.close],
           joinedRooms := [], pendingJoins := [] }

/-- Number of `emit name id` entries in the session log. -/
def emitCount (name : String) (id : String) (s : OrdersSocketState) : Nat :=
  s.log.count (SockEvent.emit name id)

theorem foldl_connectStep_log (P : List String) (s : OrdersSocketState) :
    (P.foldl connectStep s).log
      = s.log ++ P.map (fun r => SockEvent.emit joinOrderEvt r) := by
  induction P generalizing s with
  | nil => simp
  | cons p ps ih => simp [connectStep, ih]

theorem foldl_connectStep_joinedRooms (P : List String) (s : OrdersSocketState) :
    (P.foldl connectStep s).joinedRooms = P.foldl insertUniq s.joinedRooms := by
  induction P generalizing s with
  | nil => rfl
  | cons p ps ih => simp [connectStep, ih, insertUniq]

theorem foldl_connectStep_pendingJoins (P : List String) (s : OrdersSocketState) :
    (P.foldl connectStep s).pendingJoins = s.pendingJoins := by
  induction P generalizing s with
  | nil => rfl
  | cons p ps ih => simp [connectStep, ih]

theorem foldl_connectStep_connected (P : List String) (s : OrdersSocketState) :
    (P.foldl connectStep s).connected = s.connected := by
  induction P generalizing s with
  | nil => rfl
  | cons p ps ih => simp [connectStep, ih]

theorem mem_foldl_insertUniq (P J : List String) (x : String) :
    x ∈ P.foldl insertUniq J ↔ x ∈ J ∨ x ∈ P := by
  induction P generalizing J with
  | nil => simp
  | cons p ps ih =>
      by_cases hp : p ∈ J
      · simp only [List.foldl_cons, insertUniq, if_pos hp, ih, List.mem_cons]
        constructor
        · rintro (h | h)
          · exact Or.inl h
          · exact Or.inr (Or.inr h)
        · rintro (h | h | h)
          · exact Or.inl h
          · exact Or.inl (h ▸ hp)
          · exact Or.inr h
      · simp only [List.foldl_cons, insertUniq, if_neg hp, ih, List.mem_append,
          List.mem_singleton, List.mem_cons]
        tauto

theorem nodup_foldl_insertUniq (P J : List String) (hJ : J.Nodup) :
    (P.foldl insertUniq J).Nodup := by
  induction P generalizing J with
  | nil => exact hJ
  | cons p ps ih =>
      by_cases hp : p ∈ J
      · simpa [insertUniq, hp] using ih J hJ
      · have heq : List.foldl insertUniq J (p :: ps)
            = List.foldl insertUniq (J ++ [p]) ps := by
          simp [List.foldl_cons, insertUniq, hp]
        rw [heq]
        exact ih (J ++ [p]) (by simp [List.nodup_append, hJ, hp])

theorem count_emit_map (n : String) (l : List String) (x : String) :
    (l.map (fun r => SockEvent.emit n r)).count (SockEvent.emit n x) = l.count x := by
  induction l with
  | nil => rfl
  | cons p ps ih => simp [List.count_cons, ih]

theorem count_emit_map_ne (n m : String) (h : n ≠ m) (l : List String) (x : String) :
    (l.map (fun r => SockEvent.emit m r)).count (SockEvent.emit n x) = 0 := by
  refine List.count_eq_zero.mpr ?_
  simp only [List.mem_map]
  rintro ⟨r, -, hr⟩
  exact h (by injection hr.symm)

theorem connectHandler_none_log (s : OrdersSocketState) :
    (connectHandler none s).log
      = (s.log ++ s.joinedRooms.map (fun r => SockEvent.emit joinOrderEvt r))
        ++ s.pendingJoins.map (fun r => SockEvent.emit joinOrderEvt r) := by
  show (s.pendingJoins.foldl connectStep _).log = _
  rw [foldl_connectStep_log]

theorem connectHandler_none_joinedRooms (s : OrdersSocketState) :
    (connectHandler none s).joinedRooms
      = s.pendingJoins.foldl insertUniq s.joinedRooms := by
  show (s.pendingJoins.foldl connectStep _).joinedRooms = _
  rw [foldl_connectStep_joinedRooms]

theorem connectHandler_none_pendingJoins (s : OrdersSocketState) :
    (connectHandler none s).pendingJoins = [] := rfl

/-- C1: Reconnect replay. For a session whose joined-rooms set is exactly
the two rooms a and b after room r was removed via `leaveOrder`, running the
disconnect handler and then the `connect` handler emits exactly one
`joinOrder` subscribe per joined id (one for a, one for b) and emits no
`joinOrder` for the removed id r. -/
theorem reconnect_replay (a b r : String) (hab : a ≠ b) (har : a ≠ r)
    (hbr : b ≠ r) :
    let s0 : OrdersSocketState := ⟨[a, b, r], [], true, []⟩
    let s3 := connectHandler none (disconnectHandler (leaveOrder r s0))
    s3.joinedRooms = [a, b] ∧
      emitCount joinOrderEvt a s3 = 1 ∧ emitCount joinOrderEvt b s3 = 1 ∧
      emitCount joinOrderEvt r s3 = 0 := by
  intro s0 s3
  have hleave : leaveOrder r s0
      = { joinedRooms := [a, b], pendingJoins := [], connected := true,
          log := [SockEvent.emit leaveOrderEvt r] } := by
    simp [leaveOrder, s0, List.erase_cons, har, hbr]
  have hs3 : s3 = connectHandler none
      { joinedRooms := [a, b], pendingJoins := [], connected := false,
        log := [SockEvent.emit leaveOrderEvt r] } := by
    simp only [s3, disconnectHandler, hleave]
  rw [hs3]
  simp [connectHandler, emitCount, List.count_cons, joinOrderEvt,
    leaveOrderEvt, hab, har, hbr, hab.symm]

/-- Witness for C1 at rooms "A", "B" with "R" removed before the
disconnect. -/
theorem reconnect_replay_witness :
    (let s0 : OrdersSocketState := ⟨["A", "B", "R"], [], true, []⟩
     let s3 := connectHandler none (disconnectHandler (leaveOrder "R" s0))
     s3.joinedRooms = ["A", "B"] ∧
       emitCount joinOrderEvt "A" s3 = 1 ∧ emitCount joinOrderEvt "B" s3 = 1 ∧
       emitCount joinOrderEvt "R" s3 = 0) :=
  reconnect_replay "A" "B" "R" (by decide) (by decide) (by decide)

/-- C2: Pending-to-joined promotion. Calling `joinOrder c` while the socket
is not connected queues c in the pending set without emitting; the
subsequent `connect` handler emits exactly one `joinOrder` subscribe for c,
puts c in the joined set exactly once, and empties the pending set. -/
theorem pending_promotion (c : String) (J P : List String)
    (hJ : c ∉ J) (hP : c ∉ P) (hJn : J.Nodup) :
    let s0 : OrdersSocketState := ⟨J, P, false, []⟩
    let s1 := joinOrder c s0
    let s2 := connectHandler none s1
    s1.log = [] ∧ s1.pendingJoins = P ++ [c] ∧ s1.joinedRooms = J ∧
      emitCount joinOrderEvt c s2 = 1 ∧
      s2.joinedRooms.count c = 1 ∧ s2.pendingJoins = [] := by
  intro s0 s1 s2
  have hs1 : s1 = ⟨J, P ++ [c], false, []⟩ := by
    simp [s1, joinOrder, s0, hJ, insertUniq, hP]
  have hlog : s2.log
      = (J.map fun r => SockEvent.emit joinOrderEvt r)
        ++ ((P ++ [c]).map fun r => SockEvent.emit joinOrderEvt r) := by
    show (connectHandler none s1).log = _
    rw [connectHandler_none_log, hs1]
    simp
  have hjoined : s2.joinedRooms = (P ++ [c]).foldl insertUniq J := by
    show (connectHandler none s1).joinedRooms = _
    rw [connectHandler_none_joinedRooms, hs1]
  refine ⟨by simp [hs1], by simp [hs1], by simp [hs1], ?_, ?_, ?_⟩
  · rw [emitCount, hlog, List.count_append, count_emit_map, count_emit_map]
    rw [List.count_eq_zero.mpr hJ, List.count_append,
      List.count_eq_zero.mpr hP]
    simp
  · rw [hjoined]
    refine List.count_eq_one_of_mem (nodup_foldl_insertUniq _ _ hJn) ?_
    rw [mem_foldl_insertUniq]
    simp
  · exact connectHandler_none_pendingJoins s1

/-- Witness for C2 with a queued order "C", one already-joined room "A" and
one other pending room "B". -/
theorem pending_promotion_witness :
    (let s0 : OrdersSocketState := ⟨["A"], ["B"], false, []⟩
     let s1 := joinOrder "C" s0
     let s2 := connectHandler none s1
     s1.log = [] ∧ s1.pendingJoins = ["B", "C"] ∧ s1.joinedRooms = ["A"] ∧
       emitCount joinOrderEvt "C" s2 = 1 ∧
       s2.joinedRooms.count "C" = 1 ∧ s2.pendingJoins = []) :=
  pending_promotion "C" ["A"] ["B"] (by decide) (by decide) (by decide)

/-- C3: Idempotent join. With c neither joined nor pending, the second of
two consecutive `joinOrder c` calls is a state no-op, and over the whole
scenario (the two calls when connected; the two calls followed by the
`connect` handler when not connected) exactly one `joinOrder` subscribe for
c is emitted and c occurs exactly once in the membership state. -/
theorem idempotent_join (c : String) (J P : List String) (conn : Bool)
    (hJ : c ∉ J) (hP : c ∉ P) (hJn : J.Nodup) :
    let s0 : OrdersSocketState := ⟨J, P, conn, []⟩
    let s1 := joinOrder c s0
    let sf := if conn then joinOrder c s1 else connectHandler none (joinOrder c s1)
    joinOrder c s1 = s1 ∧
      emitCount joinOrderEvt c sf = 1 ∧
      sf.joinedRooms.count c + sf.pendingJoins.count c = 1 := by
  intro s0 s1 sf
  cases conn with
  | true =>
      have hs1 : s1 = ⟨J ++ [c], P, true, [SockEvent.emit joinOrderEvt c]⟩ := by
        simp [s1, joinOrder, s0, hJ]
      have hnoop : joinOrder c s1 = s1 := by
        rw [hs1]; simp [joinOrder]
      have hsf : sf = s1 := by simp [sf, hnoop]
      refine ⟨hnoop, ?_, ?_⟩
      · simp [hsf, hs1, emitCount]
      · simp [hsf, hs1, List.count_append, List.count_eq_zero.mpr hJ,
          List.count_eq_zero.mpr hP]
  | false =>
      have hs1 : s1 = ⟨J, P ++ [c], false, []⟩ := by
        simp [s1, joinOrder, s0, hJ, insertUniq, hP]
      have hnoop : joinOrder c s1 = s1 := by
        rw [hs1]; simp [joinOrder, hJ, insertUniq]
      have hsf : sf = connectHandler none s1 := by simp [sf, hnoop]
      refine ⟨hnoop, ?_, ?_⟩
      · rw [hsf, emitCount]
        have hlog : (connectHandler none s1).log
            = (J.map fun r => SockEvent.emit joinOrderEvt r)
              ++ ((P ++ [c]).map fun r => SockEvent.emit joinOrderEvt r) := by
          rw [connectHandler_none_log, hs1]
          simp
        rw [hlog, List.count_append, count_emit_map, count_emit_map]
        rw [List.count_eq_zero.mpr hJ, List.count_append,
          List.count_eq_zero.mpr hP]
        simp
      · rw [hsf]
        have hjoined : (connectHandler none s1).joinedRooms
            = (P ++ [c]).foldl insertUniq J := by
          rw [connectHandler_none_joinedRooms, hs1]
        have hpend : (connectHandler none s1).pendingJoins = [] :=
          connectHandler_none_pendingJoins s1
        rw [hjoined, hpend]
        have h1 : ((P ++ [c]).foldl insertUniq J).count c = 1 := by
          refine List.count_eq_one_of_mem (nodup_foldl_insertUniq _ _ hJn) ?_
          rw [mem_foldl_insertUniq]
          simp
        simpa using h1

/-- Witness for C3 in the not-connected case, with order "C", one joined
room "A" and one pending room "B". -/
theorem idempotent_join_witness :
    (let s0 : OrdersSocketState := ⟨["A"], ["B"], false, []⟩
     let s1 := joinOrder "C" s0
     let sf := if false then joinOrder "C" s1
               else connectHandler none (joinOrder "C" s1)
     joinOrder "C" s1 = s1 ∧
       emitCount joinOrderEvt "C" sf = 1 ∧
       sf.joinedRooms.count "C" + sf.pendingJoins.count "C" = 1) :=
  idempotent_join "C" ["A"] ["B"] false (by decide) (by decide) (by decide)

/-- The room-delta effect of `OrdersScreen`: from the previously active ids
(`previousOrderIdsRef.current`) and the currently active ids, compute
`toJoin` (current but not previous) and `toLeave` (previous but not
current); `joinOrder` is then called once per element of `toJoin` and
`leaveOrder` once per element of `toLeave`, and the current ids are stored
as the new previous ids. Returns `(toJoin, toLeave, newPreviousIds)`. -/
def syncRooms (previousIds currentIds : List String) :
    List String × List String × List String :=
  let toJoin := currentIds.filter (fun id => decide (id ∉ previousIds))
  let toLeave := previousIds.filter (fun id => decide (id ∉ currentIds))
  (toJoin, toLeave, currentIds)

/-- C4: List delta correctness. For duplicate-free previous and current
active-id lists, `syncRooms` puts an id in `toJoin` exactly when it is
current but not previous and in `toLeave` exactly when it is previous but
not current; each such id occurs exactly once in the respective list (so
join/leave is called exactly once for it), and the current ids are stored
as the new previous ids. -/
theorem list_delta (prev cur : List String) (hp : prev.Nodup) (hc : cur.Nodup)
    (x : String) :
    (x ∈ (syncRooms prev cur).1 ↔ x ∈ cur ∧ x ∉ prev) ∧
    (x ∈ (syncRooms prev cur).2.1 ↔ x ∈ prev ∧ x ∉ cur) ∧
    ((syncRooms prev cur).1.count x = if x ∈ cur ∧ x ∉ prev then 1 else 0) ∧
    ((syncRooms prev cur).2.1.count x = if x ∈ prev ∧ x ∉ cur then 1 else 0) ∧
    (syncRooms prev cur).2.2 = cur := by
  refine ⟨by simp [syncRooms, List.mem_filter], by simp [syncRooms, List.mem_filter],
    ?_, ?_, rfl⟩
  · by_cases h : x ∈ cur ∧ x ∉ prev
    · rw [if_pos h]
      show (cur.filter _).count x = 1
      rw [List.count_filter (by simpa using h.2)]
      exact List.count_eq_one_of_mem hc h.1
    · rw [if_neg h]
      refine List.count_eq_zero.mpr ?_
      intro hmem
      rw [syncRooms, List.mem_filter] at hmem
      exact h ⟨hmem.1, by simpa using hmem.2⟩
  · by_cases h : x ∈ prev ∧ x ∉ cur
    · rw [if_pos h]
      show (prev.filter _).count x = 1
      rw [List.count_filter (by simpa using h.2)]
      exact List.count_eq_one_of_mem hp h.1
    · rw [if_neg h]
      refine List.count_eq_zero.mpr ?_
      intro hmem
      rw [syncRooms, List.mem_filter] at hmem
      exact h ⟨hmem.1, by simpa using hmem.2⟩

/-- Witness for C4 at previousActive = 1,2,3 and currentActive = 2,3,4:
toJoin = the single id "4" (one join call), toLeave = the single id "1"
(one leave call), and "2,3,4" becomes the new previous set. -/
theorem list_delta_witness :
    (syncRooms ["1", "2", "3"] ["2", "3", "4"]).1 = ["4"] ∧
    (syncRooms ["1", "2", "3"] ["2", "3", "4"]).2.1 = ["1"] ∧
    ((syncRooms ["1", "2", "3"] ["2", "3", "4"]).1.count "4" = 1) ∧
    ((syncRooms ["1", "2", "3"] ["2", "3", "4"]).2.1.count "1" = 1) ∧
    (syncRooms ["1", "2", "3"] ["2", "3", "4"]).2.2 = ["2", "3", "4"] :=
  ⟨by decide, by decide,
    ((list_delta ["1", "2", "3"] ["2", "3", "4"] (by decide) (by decide)
      "4").2.2.1).trans (by decide),
    ((list_delta ["1", "2", "3"] ["2", "3", "4"] (by decide) (by decide)
      "1").2.2.2.1).trans (by decide),
    (list_delta ["1", "2", "3"] ["2", "3", "4"] (by decide) (by decide)
      "1").2.2.2.2⟩

/-- `driver.location` sub-record inside a tracking snapshot. Coordinates
are opaque numeric samples; `lastUpdate` stands for the JS `Date` as an
epoch timestamp. -/
structure LocationRecord where
  latitude : Int
  longitude : Int
  lastUpdate : Int
  deriving DecidableEq, Repr

/-- `driver` sub-record of `TrackingData`. -/
structure DriverInfo where
  id : String
  name : String
  phone : Option String
  vehicleType : Option String
  vehiclePlate : Option String
  location : Option LocationRecord
  deriving DecidableEq, Repr

/-- `restaurant` sub-record of `TrackingData`. -/
structure RestaurantInfo where
  id : String
  name : String
  address : String
  deriving DecidableEq, Repr

/-- `deliveryAddress` sub-record of `TrackingData`. -/
structure DeliveryAddress where
  street : String
  number : String
  complement : Option String
  neighborhood : String
  city : String
  state : String
  deriving DecidableEq, Repr

/-- The `TrackingData` snapshot of `useOrderTracking`. -/
structure TrackingData where
  orderId : String
  status : String
  driver : Option DriverInfo
  restaurant : RestaurantInfo
  deliveryAddress : Option DeliveryAddress
  estimatedDelivery : Option Int
  deriving DecidableEq, Repr

/-- The `DriverLocation` state of `useOrderTracking`. -/
structure DriverLocation where
  driverId : String
  latitude : Int
  longitude : Int
  heading : Option Int
  speed : Option Int
  timestamp : Int
  deriving DecidableEq, Repr

/-- The observable tracking state of `useOrderTracking`: the snapshot, the
separately held driver location, and the surfaced error message. -/
structure TrackState where
  trackingData : Option TrackingData
  driverLocation : Option DriverLocation
  error : Option String
  deriving DecidableEq, Repr

/-- Payload of a `driverLocation` push: the `DriverLocation` fields plus
the `orderId` the sample belongs to. -/
structure DriverLocationMsg where
  orderId : String
  driverId : String
  latitude : Int
  longitude : Int
  heading : Option Int
  speed : Option Int
  timestamp : Int
  deriving DecidableEq, Repr

/-- Driver location derived from a snapshot's driver sub-record, as built
by both the REST fetch and the `orderTracking` handler: heading and speed
are not part of the snapshot and stay absent. -/
def locationFromSnapshot (drv : DriverInfo) (loc : LocationRecord) :
    DriverLocation :=
  { driverId := drv.id, latitude := loc.latitude, longitude := loc.longitude,
    heading := none, speed := none, timestamp := loc.lastUpdate }

/-- The record built by the `driverLocation` handler from a push payload:
every field comes from the push, none from the previous record. -/
def locationFromMsg (data : DriverLocationMsg) : DriverLocation :=
  { driverId := data.driverId, latitude := data.latitude,
    longitude := data.longitude, heading := data.heading,
    speed := data.speed, timestamp := data.timestamp }

/-- The `driverLocation` push handler: when the push's orderId matches the
currently observed order, fully replace the driver-location record with
the pushed sample; otherwise leave the state untouched. -/
def handleDriverLocation (observedOrderId : String) (data : DriverLocationMsg)
    (s : TrackState) : TrackState :=
  if data.orderId = observedOrderId then
    { s with driverLocation := some (locationFromMsg data) }
  else s

/-- The `orderTracking` push handler: when the payload carries a non-null
`data` field, replace the whole snapshot with it and derive the driver
location when present. No order-id guard is applied. -/
def handleOrderTracking (payload : Option TrackingData) (s : TrackState) :
    TrackState :=
  match payload with
  | some d =>
      let s1 := { s with trackingData := some d }
      match d.driver with
      | some drv =>
          match drv.location with
          | some loc =>
              { s1 with driverLocation := some (locationFromSnapshot drv loc) }
          | none => s1
      | none => s1
  | none => s

/-- The `orderStatusUpdate` push handler: when the push's orderId matches
the currently observed order, merge only the status field into the
snapshot (a missing snapshot stays missing); otherwise leave the state
untouched. -/
def handleOrderStatusUpdate (observedOrderId : String)
    (msgOrderId msgStatus : String) (s : TrackState) : TrackState :=
  if msgOrderId = observedOrderId then
    { s with trackingData :=
        s.trackingData.map (fun prev => { prev with status := msgStatus }) }
  else s

/-- Outcome of the REST `GET /tracking/order/id` call as seen by
`fetchTrackingData`: success with a snapshot body, or failure carrying the
optional HTTP response status and optional server-provided message. -/
inductive RestResult where
  | success (data : TrackingData)
  | failure (status : Option Nat) (message : Option String)
  deriving DecidableEq, Repr

/-- Message set on HTTP 401. -/
def sessionExpiredMessage : String := "Sessão expirada. Faça login novamente."

/-- Generic message set when a failure carries no server message. -/
def genericTrackingErrorMessage : String := "Erro ao carregar rastreamento"

/-- `fetchTrackingData`: on success store the snapshot, clear the error and
derive the driver location when present; on failure set the session-expired
message for HTTP 401 and otherwise the server message or the generic one.
The JS body is wrapped in try/catch, so the operation is total and never
throws; here it is a total state-transition function. -/
def fetchTrackingData (result : RestResult) (s : TrackState) : TrackState :=
  match result with
  | .success data =>
      let s1 := { s with trackingData := some data, error := none }
      match data.driver with
      | some drv =>
          match drv.location with
          | some loc =>
              { s1 with driverLocation := some (locationFromSnapshot drv loc) }
          | none => s1
      | none => s1
  | .failure status message =>
      if status = some 401 then { s with error := some sessionExpiredMessage }
      else { s with error := some (message.getD genericTrackingErrorMessage) }

/-- One run of the 3000ms fallback timer armed at the end of `connect`:
the timer body is the closure over the `trackingData` binding of the render
in which `connect` was memoized (`useCallback` keyed on orderId only), so
it reads the snapshot value captured when the timer was armed, not the
value current when it fires. -/
structure FallbackTimerRun where
  capturedSnapshot : Option TrackingData
  currentSnapshot : Option TrackingData
  deriving DecidableEq, Repr

/-- Whether the timer body re-issues the fallback REST fetch: it evaluates
the captured binding only (the JS guard is a stale closure over
`trackingData`). -/
def fallbackFetchIssued (run : FallbackTimerRun) : Bool :=
  run.capturedSnapshot.isNone

/-- A sample restaurant for concrete runs. -/
def sampleRestaurant : RestaurantInfo :=
  { id := "r1", name := "Pizza Roma", address := "Rua A 10" }

/-- A sample snapshot for concrete runs (no driver assigned yet). -/
def sampleSnapshot : TrackingData :=
  { orderId := "ord-1", status := "PREPARING", driver := none,
    restaurant := sampleRestaurant, deliveryAddress := none,
    estimatedDelivery := none }

/-- Tracking-session connection state used by `disconnect` of
`useOrderTracking`: whether a socket handle is held (`socketRef.current`),
the `isConnected` flag, and the event log. -/
structure TrackSession where
  socketPresent : Bool
  connected : Bool
  log : List SockEvent
  deriving DecidableEq, Repr

/-- Event name used by the tracking namespace's unsubscribe emission. -/
def unsubscribeEvt : String := "unsubscribeFromOrder"

/-- `disconnect` of `useOrderTracking`: when a socket handle is present,
emit `unsubscribeFromOrder` for the tracked order (when one is set),
terminate the socket and clear the handle; in every case clear the
connected flag. -/
def trackDisconnect (orderId : Option String) (s : TrackSession) :
    TrackSession :=
  if s.socketPresent then
    { socketPresent := false, connected := false,
      log := (match orderId with
              | some oid => s.log ++ [SockEvent.emit unsubscribeEvt oid]
              | none => s.log) ++ [SockEvent.close] }
  else { s with connected := false }

/-- A sample driver with a known location, for concrete runs. -/
def sampleDriver : DriverInfo :=
  { id := "d1", name := "Ana", phone := none, vehicleType := none,
    vehiclePlate := none, location := some ⟨5, 6, 100⟩ }

/-- A sample snapshot for order "X" that carries a driver with a location. -/
def sampleSnapshotWithDriver : TrackingData :=
  { orderId := "X", status := "ON_ROUTE", driver := some sampleDriver,
    restaurant := sampleRestaurant, deliveryAddress := none,
    estimatedDelivery := none }

/-- C5: Stale event discard. A `driverLocation` or `orderStatusUpdate` push
whose orderId differs from the currently observed order leaves the whole
tracking state (snapshot, driver location and error) unchanged. -/
theorem stale_event_discard (observed : String) (msg : DriverLocationMsg)
    (msgOrderId msgStatus : String) (s : TrackState)
    (h1 : msg.orderId ≠ observed) (h2 : msgOrderId ≠ observed) :
    handleDriverLocation observed msg s = s ∧
    handleOrderStatusUpdate observed msgOrderId msgStatus s = s := by
  constructor <;>
    simp [handleDriverLocation, handleOrderStatusUpdate, h1, h2]

/-- Witness for C5: pushes for order "X" arriving while "Y" is observed
leave the state for "Y" untouched. -/
theorem stale_event_discard_witness :
    handleDriverLocation "Y" ⟨"X", "d1", 2, 3, none, none, 7⟩
        ⟨some sampleSnapshot, none, none⟩
      = (⟨some sampleSnapshot, none, none⟩ : TrackState) ∧
    handleOrderStatusUpdate "Y" "X" "DELIVERED"
        ⟨some sampleSnapshot, none, none⟩
      = (⟨some sampleSnapshot, none, none⟩ : TrackState) :=
  stale_event_discard "Y" ⟨"X", "d1", 2, 3, none, none, 7⟩ "X" "DELIVERED"
    ⟨some sampleSnapshot, none, none⟩ (by decide) (by decide)

/-- C6: the timer body of the 3000ms fallback evaluates the snapshot
binding captured when `connect` ran, not the current one. At the failing
input — no snapshot when the timer was armed, snapshot populated by the
time it fires — the fallback REST fetch is issued anyway, contradicting
the claim that it is not re-issued once a snapshot has been populated. -/
theorem fallback_fetch_reissued_despite_snapshot :
    (FallbackTimerRun.mk none (some sampleSnapshot)).currentSnapshot.isSome
        = true ∧
    fallbackFetchIssued (FallbackTimerRun.mk none (some sampleSnapshot))
        = true :=
  ⟨rfl, rfl⟩

/-- C7: Merge vs replace. A matching `driverLocation` push fully replaces
the driver-location record with one built from the push alone (whatever
record was held before) and leaves the snapshot untouched, while a matching
`orderStatusUpdate` push rewrites only the snapshot's status field and
leaves the driver location untouched. -/
theorem merge_vs_replace (observed : String) (msg : DriverLocationMsg)
    (msgStatus : String) (s : TrackState) (hmsg : msg.orderId = observed) :
    (handleDriverLocation observed msg s).driverLocation
      = some (locationFromMsg msg) ∧
    (handleDriverLocation observed msg s).trackingData = s.trackingData ∧
    (handleOrderStatusUpdate observed observed msgStatus s).driverLocation
      = s.driverLocation ∧
    (handleOrderStatusUpdate observed observed msgStatus s).trackingData
      = s.trackingData.map (fun prev => { prev with status := msgStatus }) := by
  refine ⟨?_, ?_, ?_, ?_⟩ <;>
    simp [handleDriverLocation, handleOrderStatusUpdate, hmsg]

/-- Witness for C7: a held location with coordinates (1, 1) is replaced by
the pushed (2, 2) sample, and a status push to "DELIVERED" changes only the
status and keeps the (1, 1) location. -/
theorem merge_vs_replace_witness :
    (handleDriverLocation "Y" ⟨"Y", "d1", 2, 2, none, none, 5⟩
        ⟨some sampleSnapshot, some ⟨"d1", 1, 1, none, none, 0⟩, none⟩).driverLocation
      = some ⟨"d1", 2, 2, none, none, 5⟩ ∧
    (handleDriverLocation "Y" ⟨"Y", "d1", 2, 2, none, none, 5⟩
        ⟨some sampleSnapshot, some ⟨"d1", 1, 1, none, none, 0⟩, none⟩).trackingData
      = some sampleSnapshot ∧
    (handleOrderStatusUpdate "Y" "Y" "DELIVERED"
        ⟨some sampleSnapshot, some ⟨"d1", 1, 1, none, none, 0⟩, none⟩).driverLocation
      = some ⟨"d1", 1, 1, none, none, 0⟩ ∧
    (handleOrderStatusUpdate "Y" "Y" "DELIVERED"
        ⟨some sampleSnapshot, some ⟨"d1", 1, 1, none, none, 0⟩, none⟩).trackingData
      = some { sampleSnapshot with status := "DELIVERED" } := by
  have h := merge_vs_replace "Y" ⟨"Y", "d1", 2, 2, none, none, 5⟩ "DELIVERED"
    ⟨some sampleSnapshot, some ⟨"d1", 1, 1, none, none, 0⟩, none⟩ rfl
  exact ⟨h.1.trans (by decide), h.2.1, h.2.2.1, h.2.2.2.trans (by decide)⟩

/-- C8: the `orderTracking` handler applies no order-id guard: any payload
with a non-null data field replaces the whole snapshot — even when the
payload's orderId differs from the observed order — and derives the driver
location from the payload when one is present; a null data field leaves the
state untouched. -/
theorem orderTracking_no_id_guard (observed : String) (d : TrackingData)
    (s : TrackState) (hne : d.orderId ≠ observed) :
    (handleOrderTracking (some d) s).trackingData = some d ∧
    handleOrderTracking none s = s ∧
    (∀ drv loc, d.driver = some drv → drv.location = some loc →
      (handleOrderTracking (some d) s).driverLocation
        = some (locationFromSnapshot drv loc)) ∧
    (d.driver = none →
      (handleOrderTracking (some d) s).driverLocation = s.driverLocation) := by
  refine ⟨?_, rfl, ?_, ?_⟩
  · cases hd : d.driver with
    | none => simp [handleOrderTracking, hd]
    | some drv => cases hl : drv.location <;> simp [handleOrderTracking, hd, hl]
  · intro drv loc hdrv hloc
    simp [handleOrderTracking, hdrv, hloc]
  · intro hd
    simp [handleOrderTracking, hd]

/-- Witness for C8: a snapshot payload for order "X" replaces the snapshot
and the driver location even though order "Y" is the one observed. -/
theorem orderTracking_no_id_guard_witness :
    (handleOrderTracking (some sampleSnapshotWithDriver)
        ⟨none, none, none⟩).trackingData = some sampleSnapshotWithDriver ∧
    handleOrderTracking none ⟨none, none, none⟩
      = (⟨none, none, none⟩ : TrackState) ∧
    (∀ drv loc, sampleSnapshotWithDriver.driver = some drv →
      drv.location = some loc →
      (handleOrderTracking (some sampleSnapshotWithDriver)
          ⟨none, none, none⟩).driverLocation
        = some (locationFromSnapshot drv loc)) ∧
    (sampleSnapshotWithDriver.driver = none →
      (handleOrderTracking (some sampleSnapshotWithDriver)
          ⟨none, none, none⟩).driverLocation = none) :=
  orderTracking_no_id_guard "Y" sampleSnapshotWithDriver ⟨none, none, none⟩
    (by decide)

/-- C9: Error mapping of the REST tracking fetch. HTTP 401 sets the
session-expired message; any other failure sets the server-provided message
when present and the generic retriable message otherwise; a successful
fetch clears the error and stores the snapshot. The embedded operation is a
total function, matching the try/catch wrapper that never throws. -/
theorem fetch_error_mapping (s : TrackState) (st : Option Nat)
    (msg : Option String) (d : TrackingData) (hst : st ≠ some 401) :
    (fetchTrackingData (.failure (some 401) msg) s).error
      = some sessionExpiredMessage ∧
    (fetchTrackingData (.failure st msg) s).error
      = some (msg.getD genericTrackingErrorMessage) ∧
    (fetchTrackingData (.success d) s).error = none ∧
    (fetchTrackingData (.success d) s).trackingData = some d := by
  refine ⟨by simp [fetchTrackingData], by simp [fetchTrackingData, hst], ?_, ?_⟩
  · cases hd : d.driver with
    | none => simp [fetchTrackingData, hd]
    | some drv => cases hl : drv.location <;> simp [fetchTrackingData, hd, hl]
  · cases hd : d.driver with
    | none => simp [fetchTrackingData, hd]
    | some drv => cases hl : drv.location <;> simp [fetchTrackingData, hd, hl]

/-- Witness for C9: a 401 maps to the session-expired message, a 500 with a
server message surfaces that message, and a success clears a previously set
error. -/
theorem fetch_error_mapping_witness :
    (fetchTrackingData (.failure (some 401) (some "boom"))
        ⟨none, none, none⟩).error = some sessionExpiredMessage ∧
    (fetchTrackingData (.failure (some 500) (some "boom"))
        ⟨none, none, none⟩).error
      = some ((some "boom").getD genericTrackingErrorMessage) ∧
    (fetchTrackingData (.success sampleSnapshot)
        ⟨none, none, none⟩).error = none ∧
    (fetchTrackingData (.success sampleSnapshot)
        ⟨none, none, none⟩).trackingData = some sampleSnapshot :=
  fetch_error_mapping ⟨none, none, none⟩ (some 500) (some "boom")
    sampleSnapshot (by decide)

/-- C10: Idempotent close. With a socket handle present, `disconnect` emits
the unsubscribe for the tracked order and then terminates the socket (in
that order in the log), clears the handle and the connected flag; a second
`disconnect` — with any orderId — is a state no-op (and, being a total
function, never an error). The orders-socket cleanup likewise emits
`leaveOrder` for every joined room before terminating its socket. -/
theorem idempotent_close (oid : String) (oid2 : Option String)
    (s : TrackSession) (t : OrdersSocketState) (hs : s.socketPresent = true) :
    (trackDisconnect (some oid) s).log
      = s.log ++ [SockEvent.emit unsubscribeEvt oid, SockEvent.close] ∧
    (trackDisconnect (some oid) s).socketPresent = false ∧
    (trackDisconnect (some oid) s).connected = false ∧
    trackDisconnect oid2 (trackDisconnect (some oid) s)
      = trackDisconnect (some oid) s ∧
    (ordersCleanup t).log
      = (t.log ++ t.joinedRooms.map (fun r => SockEvent.emit leaveOrderEvt r))
          ++ [SockEvent.close] := by
  have h1 : trackDisconnect (some oid) s
      = { socketPresent := false, connected := false,
          log := (s.log ++ [SockEvent.emit unsubscribeEvt oid])
                   ++ [SockEvent.close] } := by
    simp [trackDisconnect, hs]
  refine ⟨?_, ?_, ?_, ?_, rfl⟩
  · rw [h1]; simp
  · rw [h1]
  · rw [h1]
  · rw [h1]; simp [trackDisconnect]

/-- Witness for C10 on a live session tracking "ord-1", with a second
disconnect carrying no orderId, and an orders socket with joined room "A". -/
theorem idempotent_close_witness :
    (trackDisconnect (some "ord-1") ⟨true, true, []⟩).log
      = [] ++ [SockEvent.emit unsubscribeEvt "ord-1", SockEvent.close] ∧
    (trackDisconnect (some "ord-1") ⟨true, true, []⟩).socketPresent = false ∧
    (trackDisconnect (some "ord-1") ⟨true, true, []⟩).connected = false ∧
    trackDisconnect none (trackDisconnect (some "ord-1") ⟨true, true, []⟩)
      = trackDisconnect (some "ord-1") ⟨true, true, []⟩ ∧
    (ordersCleanup ⟨["A"], [], true, []⟩).log
      = (([] : List SockEvent)
          ++ ["A"].map (fun r => SockEvent.emit leaveOrderEvt r))
          ++ [SockEvent.close] :=
  idempotent_close "ord-1" none ⟨true, true, []⟩ ⟨["A"], [], true, []⟩ rfl

end ZeFood
